import Mathlib

/-!
Verification of the expense-tracker analytics core (`app/api/v1/expenses`),
a shallow embedding of the service-layer aggregation logic
(`service.py`) and of the route-level response shaping (`routes.py`).

Records are modelled as lists of `Expense` values; the SQL grouped queries
are modelled as filters, dedups and stable sorts over those lists; monetary
amounts are exact rationals (the source stores `Numeric(10,2)` values).
-/

/-- Calendar date carried by `expense_date` (the sub-day time component is
irrelevant to every aggregation modelled here, which buckets at day
granularity or coarser). -/
structure Date where
  year : Nat
  month : Nat
  day : Nat
deriving DecidableEq

/-- The closed category enumeration from `models.py` (`ExpenseCategory`). -/
inductive ExpenseCategory
  | food
  | transport
  | rent
  | groceries
  | utilities
  | entertainment
  | healthcare
  | education
  | shopping
  | savings
  | foodstuff
  | travel
  | others
deriving DecidableEq

/-- One row of the `expenses` table (`models.py`, class `Expense`). -/
structure Expense where
  user_id : Nat
  title : String
  amount : ℚ
  category : ExpenseCategory
  description : Option String
  expense_date : Date
deriving DecidableEq

/-- Chronological (lexicographic) order on (year, month, day)-style keys,
the order used by the store for `ORDER BY year, month`, `ORDER BY year`
and `ORDER BY date`. -/
def keyLe (a b : Nat × Nat × Nat) : Prop :=
  a.1 < b.1 ∨ (a.1 = b.1 ∧ (a.2.1 < b.2.1 ∨ (a.2.1 = b.2.1 ∧ a.2.2 ≤ b.2.2)))

/-- Reversed chronological order (the `desc` ordering of the queries). -/
def keyGe (a b : Nat × Nat × Nat) : Prop := keyLe b a

/-- Strict chronological order. -/
def keyLt (a b : Nat × Nat × Nat) : Prop := keyLe a b ∧ a ≠ b

instance : DecidableRel keyLe := fun a b => by
  unfold keyLe; exact inferInstance

instance : DecidableRel keyGe := fun a b => by
  unfold keyGe keyLe; exact inferInstance

theorem keyLe_total (a b : Nat × Nat × Nat) : keyLe a b ∨ keyLe b a := by
  unfold keyLe; omega

theorem keyLe_trans (a b c : Nat × Nat × Nat) :
    keyLe a b → keyLe b c → keyLe a c := by
  unfold keyLe; omega

instance : IsTotal (Nat × Nat × Nat) keyGe :=
  ⟨fun a b => (keyLe_total b a).elim Or.inl Or.inr⟩

instance : IsTrans (Nat × Nat × Nat) keyGe :=
  ⟨fun _ _ _ h1 h2 => keyLe_trans _ _ _ h2 h1⟩

/-- Chronological order on dates (used for the inclusive date-window
filters `expense_date >= start_date` / `expense_date <= end_date`). -/
def dateLe (a b : Date) : Prop :=
  keyLe (a.year, a.month, a.day) (b.year, b.month, b.day)

instance : DecidableRel dateLe := fun a b => by
  unfold dateLe; exact inferInstance

/-- The `WHERE` clause shared by the category-grouping and summary queries:
owner scoping plus the optional inclusive date window. -/
def matchesQuery (user : Nat) (s e : Option Date) (r : Expense) : Bool :=
  r.user_id == user &&
    (match s with
     | none => true
     | some sd => decide (dateLe sd r.expense_date)) &&
    (match e with
     | none => true
     | some ed => decide (dateLe r.expense_date ed))

/-- `SUM(amount)` over the rows of one category group. -/
def catTotal (m : List Expense) (c : ExpenseCategory) : ℚ :=
  ((m.filter (fun r => r.category = c)).map (fun r => r.amount)).sum

/-- `COUNT(id)` over the rows of one category group. -/
def catCount (m : List Expense) (c : ExpenseCategory) : Nat :=
  (m.filter (fun r => r.category = c)).length

/-- The `ORDER BY total_amount DESC` relation between category groups of the
record list `m` (ties resolved deterministically by the stable sort). -/
def catGe (m : List Expense) (c₁ c₂ : ExpenseCategory) : Prop :=
  catTotal m c₂ ≤ catTotal m c₁

instance (m : List Expense) : DecidableRel (catGe m) := fun a b => by
  unfold catGe; exact inferInstance

instance (m : List Expense) : IsTotal ExpenseCategory (catGe m) :=
  ⟨fun a b => le_total (catTotal m b) (catTotal m a)⟩

instance (m : List Expense) : IsTrans ExpenseCategory (catGe m) :=
  ⟨fun _ _ _ h1 h2 => le_trans h2 h1⟩

/-- Row of `CategorySpendingModel` (`schemas.py`). -/
structure CategorySpending where
  category : ExpenseCategory
  total_amount : ℚ
  expense_count : Nat
deriving DecidableEq

/-- `ExpenseService.get_spending_by_category`: group the owner's (optionally
date-windowed) expenses by category, report sum and count per group,
ordered by total amount descending. -/
def get_spending_by_category (user : Nat) (s e : Option Date)
    (rs : List Expense) : List CategorySpending :=
  let matching := rs.filter (matchesQuery user s e)
  let cats := (matching.map (fun r => r.category)).dedup
  (List.insertionSort (catGe matching) cats).map
    (fun c => ⟨c, catTotal matching c, catCount matching c⟩)

/-- `SpendingSummaryModel` (`schemas.py`). -/
structure SpendingSummary where
  total_spending : ℚ
  expense_count : Nat
  category_breakdown : List CategorySpending
  start_date : Option Date
  end_date : Option Date
deriving DecidableEq

/-- `ExpenseService.get_spending_summary`: overall total and count over the
owner's windowed expenses (`SUM` of no rows reported as 0.0, `COUNT` as 0),
plus the category breakdown. -/
def get_spending_summary (user : Nat) (s e : Option Date)
    (rs : List Expense) : SpendingSummary :=
  { total_spending := ((rs.filter (matchesQuery user s e)).map
      (fun r => r.amount)).sum
    expense_count := (rs.filter (matchesQuery user s e)).length
    category_breakdown := get_spending_by_category user s e rs
    start_date := s
    end_date := e }

/-- The `WHERE` clause of both monthly-statistics queries: owner scoping plus
`extract(year) == year` and `extract(month) == month`. -/
def monthPred (user : Nat) (year month : Nat) (r : Expense) : Bool :=
  r.user_id == user && r.expense_date.year == year &&
    r.expense_date.month == month

/-- Zero-pad a numeral to two digits, Python's `"{n:02d}"` for `n ≥ 0`. -/
def pad2 (n : Nat) : String :=
  if n < 10 then "0" ++ toString n else toString n

/-- Zero-pad a numeral to four digits, the year field of Python's
`date.__str__`. -/
def pad4 (n : Nat) : String :=
  if n < 10 then "000" ++ toString n
  else if n < 100 then "00" ++ toString n
  else if n < 1000 then "0" ++ toString n
  else toString n

/-- `ExpenseStatisticsModel` (`schemas.py`), the shape returned by
`get_monthly_statistics`. -/
structure MonthlyStatistics where
  period : String
  total_spending : ℚ
  average_expense : ℚ
  expense_count : Nat
  top_category : Option ExpenseCategory
  top_category_amount : Option ℚ
deriving DecidableEq

/-- `ExpenseService.get_monthly_statistics`: sum, mean and count of the
owner's expenses in one (year, month), `NULL` aggregates of an empty month
reported as 0.0, plus the top category (first row of the per-category
totals ordered descending, `None` when the month is empty). -/
def get_monthly_statistics (user : Nat) (year month : Nat)
    (rs : List Expense) : MonthlyStatistics :=
  let matching := rs.filter (monthPred user year month)
  let cats := (matching.map (fun r => r.category)).dedup
  let top := (List.insertionSort (catGe matching) cats).head?
  { period := toString year ++ "-" ++ pad2 month
    total_spending := (matching.map (fun r => r.amount)).sum
    average_expense :=
      if matching.length = 0 then 0
      else (matching.map (fun r => r.amount)).sum / (matching.length : ℚ)
    expense_count := matching.length
    top_category := top
    top_category_amount := top.map (fun c => catTotal matching c) }

/-- The grouping key used by `get_expenses_for_visualization`: (year, month)
for `"month"`, the year alone for `"year"`, the calendar date for every
other period type (the source's `else` branch covering `"week"` and
`"day"`). -/
def dateKey (p : String) (d : Date) : Nat × Nat × Nat :=
  if p == "month" then (d.year, d.month, 0)
  else if p == "year" then (d.year, 0, 0)
  else (d.year, d.month, d.day)

/-- `SUM(amount)` over the rows of one time bucket. -/
def keyTotal (p : String) (m : List Expense) (k : Nat × Nat × Nat) : ℚ :=
  ((m.filter (fun r => dateKey p r.expense_date = k)).map
    (fun r => r.amount)).sum

/-- `COUNT(id)` over the rows of one time bucket. -/
def keyCount (p : String) (m : List Expense) (k : Nat × Nat × Nat) : Nat :=
  (m.filter (fun r => dateKey p r.expense_date = k)).length

/-- The period label attached to a bucket: `"YYYY-MM"` for `"month"`,
`"YYYY"` for `"year"`, the ISO date string for the day-level buckets. -/
def periodLabel (p : String) (k : Nat × Nat × Nat) : String :=
  if p == "month" then toString k.1 ++ "-" ++ pad2 k.2.1
  else if p == "year" then toString k.1
  else pad4 k.1 ++ "-" ++ pad2 k.2.1 ++ "-" ++ pad2 k.2.2

/-- The bucket keys selected by the visualization query: distinct keys of
the owner's expenses, ordered most-recent-first and capped at `limit`
(`GROUP BY ... ORDER BY ... DESC LIMIT limit`). -/
def visKeys (user : Nat) (p : String) (limit : Nat)
    (rs : List Expense) : List (Nat × Nat × Nat) :=
  (List.insertionSort keyGe
    (((rs.filter (fun r => r.user_id == user)).map
      (fun r => dateKey p r.expense_date)).dedup)).take limit

/-- `ChartDataPointModel` (`schemas.py`). -/
structure ChartDataPoint where
  period : String
  total_amount : ℚ
  expense_count : Nat
deriving DecidableEq

/-- `ExpenseService.get_expenses_for_visualization`: the selected buckets
reversed into chronological order, each carrying its label, sum and
count. -/
def get_expenses_for_visualization (user : Nat) (p : String) (limit : Nat)
    (rs : List Expense) : List ChartDataPoint :=
  let matching := rs.filter (fun r => r.user_id == user)
  (visKeys user p limit rs).reverse.map
    (fun k => ⟨periodLabel p k, keyTotal p matching k, keyCount p matching k⟩)

/-- `CategoryChartDataModel` (`schemas.py`). -/
structure CategoryChartData where
  category : ExpenseCategory
  total_amount : ℚ
  expense_count : Nat
  percentage : ℚ
deriving DecidableEq

/-- `ExpenseService.get_category_chart_data`: the category breakdown with
each group's share of the grand total as a percentage (0.0 for every group
whenever the grand total is not positive). -/
def get_category_chart_data (user : Nat) (s e : Option Date)
    (rs : List Expense) : List CategoryChartData :=
  let category_spending := get_spending_by_category user s e rs
  let total_spending :=
    (category_spending.map (fun c => c.total_amount)).sum
  category_spending.map (fun c =>
    ⟨c.category, c.total_amount, c.expense_count,
      if 0 < total_spending then c.total_amount / total_spending * 100
      else 0⟩)

/-- The route-level pagination arithmetic of `get_expenses` (`routes.py`):
`math.ceil(total_count / page_size)` for a positive count, otherwise 0. -/
def total_pages (total_count page_size : Nat) : Nat :=
  if 0 < total_count then
    (⌈(total_count : ℚ) / (page_size : ℚ)⌉).toNat
  else 0

/-- The failure values surfaced by the routes modelled here. -/
inductive ApiError
  | badRequest (detail : String)
deriving DecidableEq

/-- `ChartVisualizationResponseModel` (`schemas.py`). -/
structure ChartVisualizationResponse where
  period_type : String
  data_points : List ChartDataPoint
  total_periods : Nat
  total_spending : ℚ
  average_spending : ℚ
deriving DecidableEq

/-- The period types accepted by the visualization route. -/
def allowedPeriodTypes : List String := ["day", "week", "month", "year"]

/-- The `get_visualization_data` route handler (`routes.py`): reject an
unrecognized `period_type` with 400 before touching the store, otherwise
assemble the data points with their grand total, period count and per-period
average (0.0 when there are no data points). -/
def get_visualization_data (user : Nat) (p : String) (limit : Nat)
    (rs : List Expense) : Except ApiError ChartVisualizationResponse :=
  if p ∉ allowedPeriodTypes then
    .error (.badRequest
      "Invalid period_type. Must be one of: day, week, month, year")
  else
    let data_points := get_expenses_for_visualization user p limit rs
    let total_spending := (data_points.map (fun x => x.total_amount)).sum
    .ok
      { period_type := p
        data_points := data_points
        total_periods := data_points.length
        total_spending := total_spending
        average_spending :=
          if data_points = [] then 0
          else total_spending / (data_points.length : ℚ) }

/-- Presentation-boundary rounding to two decimals (the
`round(float(value), 2)` serializers in `schemas.py`). -/
def round2 (q : ℚ) : ℚ := (round (q * 100) : ℚ) / 100

/-- The serialized bytes-relevant content of one `CategorySpendingModel`
row: category tag, rounded total, count. -/
def serializeCategorySpending (x : CategorySpending) :
    ExpenseCategory × ℚ × Nat :=
  (x.category, round2 x.total_amount, x.expense_count)

/-- Relational semantics of the category query
(`GROUP BY category ORDER BY total_amount DESC`, `service.py`): the store
determines the group rows uniquely (one row per present category, with its
sum and count — the rows of `get_spending_by_category`), but `ORDER BY`
constrains only the descending total order, so the store may return any
permutation of the rows consistent with it; the order between tied totals
is unspecified. An output is admissible exactly when it is such a
permutation. -/
def validCategoryResult (user : Nat) (s e : Option Date) (rs : List Expense)
    (out : List CategorySpending) : Prop :=
  out.Perm (get_spending_by_category user s e rs) ∧
  out.Pairwise (fun x y => y.total_amount ≤ x.total_amount)

/-- A record set with two single-record categories tied on total amount. -/
def tieRecords : List Expense :=
  [⟨0, "a", 5, .food, none, ⟨2025, 1, 1⟩⟩,
   ⟨0, "b", 5, .transport, none, ⟨2025, 1, 2⟩⟩]

/-- Common generalization of `catTotal` and `catCount`: fold a monoid-valued
projection over the rows of one category group. -/
def catAgg {M : Type} [AddCommMonoid M] (g : Expense → M)
    (m : List Expense) (c : ExpenseCategory) : M :=
  ((m.filter (fun r => r.category = c)).map g).sum

/-- The grand total used by the category chart as percentage denominator:
sum of the per-category totals (`sum(cat.total_amount ...)` in the
source). -/
def grandTotal (user : Nat) (s e : Option Date) (rs : List Expense) : ℚ :=
  ((get_spending_by_category user s e rs).map (fun c => c.total_amount)).sum

example : get_spending_by_category 0 none none [] = [] := rfl

theorem sum_map_add_distrib {α M : Type} [AddCommMonoid M] (l : List α)
    (f g : α → M) :
    (l.map (fun x => f x + g x)).sum = (l.map f).sum + (l.map g).sum := by
  induction l with
  | nil => simp
  | cons a l ih => simp [ih, add_assoc, add_left_comm]

theorem sum_map_single {α M : Type} [AddCommMonoid M] [DecidableEq α] :
    ∀ (cats : List α) (x : α) (a : M), cats.Nodup → x ∈ cats →
      (cats.map (fun c => if x = c then a else 0)).sum = a := by
  intro cats
  induction cats with
  | nil => intro x a _ hx; cases hx
  | cons c cs ih =>
    intro x a hnd hx
    rcases List.nodup_cons.mp hnd with ⟨hc, hcs⟩
    by_cases hxc : x = c
    · subst hxc
      have hzero : cs.map (fun c' => if x = c' then a else 0) =
          cs.map (fun _ => (0 : M)) := by
        apply List.map_congr_left
        intro c' hc'
        exact if_neg (fun h : x = c' => hc (h ▸ hc'))
      simp [hzero]
    · have hx' : x ∈ cs := (List.mem_cons.mp hx).resolve_left hxc
      rw [List.map_cons, List.sum_cons, if_neg hxc, zero_add,
        ih x a hcs hx']

theorem catAgg_cons {M : Type} [AddCommMonoid M] (g : Expense → M)
    (r : Expense) (m : List Expense) (c : ExpenseCategory) :
    catAgg g (r :: m) c =
      (if r.category = c then g r else 0) + catAgg g m c := by
  by_cases h : r.category = c <;> simp [catAgg, List.filter_cons, h]

theorem catAgg_partition {M : Type} [AddCommMonoid M] (g : Expense → M)
    (cats : List ExpenseCategory) :
    ∀ m : List Expense, cats.Nodup → (∀ r ∈ m, r.category ∈ cats) →
      (cats.map (fun c => catAgg g m c)).sum = (m.map g).sum := by
  intro m
  induction m with
  | nil => intro _ _; simp [catAgg]
  | cons r m ih =>
    intro hnd hcov
    have hcov' : ∀ r' ∈ m, r'.category ∈ cats :=
      fun r' hr' => hcov r' (List.mem_cons_of_mem _ hr')
    have hr : r.category ∈ cats := hcov r (List.mem_cons_self _ _)
    simp only [catAgg_cons]
    rw [sum_map_add_distrib, sum_map_single cats r.category (g r) hnd hr,
      ih hnd hcov']
    simp

theorem breakdown_total_sum (user : Nat) (s e : Option Date)
    (rs : List Expense) :
    ((get_spending_by_category user s e rs).map
        (fun x => x.total_amount)).sum =
      ((rs.filter (matchesQuery user s e)).map (fun r => r.amount)).sum := by
  unfold get_spending_by_category
  rw [List.map_map]
  have hperm :
      (List.insertionSort (catGe (rs.filter (matchesQuery user s e)))
          (((rs.filter (matchesQuery user s e)).map
            (fun r => r.category)).dedup)).Perm
        (((rs.filter (matchesQuery user s e)).map
          (fun r => r.category)).dedup) :=
    List.perm_insertionSort _ _
  rw [(hperm.map _).sum_eq]
  exact catAgg_partition (fun r => r.amount) _ _ (List.nodup_dedup _)
    (fun r hr => List.mem_dedup.mpr (List.mem_map.mpr ⟨r, hr, rfl⟩))

theorem breakdown_count_sum (user : Nat) (s e : Option Date)
    (rs : List Expense) :
    ((get_spending_by_category user s e rs).map
        (fun x => x.expense_count)).sum =
      (rs.filter (matchesQuery user s e)).length := by
  unfold get_spending_by_category
  rw [List.map_map]
  have hperm :
      (List.insertionSort (catGe (rs.filter (matchesQuery user s e)))
          (((rs.filter (matchesQuery user s e)).map
            (fun r => r.category)).dedup)).Perm
        (((rs.filter (matchesQuery user s e)).map
          (fun r => r.category)).dedup) :=
    List.perm_insertionSort _ _
  rw [(hperm.map _).sum_eq]
  have h := catAgg_partition (fun _ => (1 : ℕ)) _
    (rs.filter (matchesQuery user s e)) (List.nodup_dedup _)
    (fun r hr => List.mem_dedup.mpr (List.mem_map.mpr ⟨r, hr, rfl⟩))
  calc ((((rs.filter (matchesQuery user s e)).map
        (fun r => r.category)).dedup).map
          (fun c => catCount (rs.filter (matchesQuery user s e)) c)).sum
      = ((rs.filter (matchesQuery user s e)).map (fun _ => (1 : ℕ))).sum := by
        rw [← h]
        apply congrArg
        apply List.map_congr_left
        intro c _
        simp [catCount, catAgg]
    _ = (rs.filter (matchesQuery user s e)).length := by
        simp

theorem sorted_take_above (l : List (Nat × Nat × Nat)) (n : Nat)
    (hs : l.Pairwise keyGe) (hnd : l.Nodup) (k : Nat × Nat × Nat)
    (hk : k ∈ l) (hknot : k ∉ l.take n) :
    ∀ k' ∈ l.take n, keyLt k k' := by
  intro k' hk'
  have hsplit := List.take_append_drop n l
  have hk2 : k ∈ l.take n ++ l.drop n := by rw [hsplit]; exact hk
  have hkdrop : k ∈ l.drop n := (List.mem_append.mp hk2).resolve_left hknot
  have hpw : (l.take n ++ l.drop n).Pairwise keyGe := by
    rw [hsplit]; exact hs
  have hle : keyGe k' k := (List.pairwise_append.mp hpw).2.2 k' hk' k hkdrop
  have hnd2 : (l.take n ++ l.drop n).Nodup := by rw [hsplit]; exact hnd
  have hdisj := (List.nodup_append.mp hnd2).2.2
  exact ⟨hle, fun he => hdisj (he ▸ hk') hkdrop⟩

/-- Claim C1: for every recognized period type the time-series result is
chronologically strictly ascending, has at most `limit` points, every point
counts at least one expense, the selected bucket keys dominate every
non-selected non-empty bucket (they are the most recent ones), and the
points are exactly the reversed selected keys with their label, sum and
count. -/
theorem c1_time_series_shape (user : Nat) (p : String) (limit : Nat)
    (rs : List Expense) (_hp : p ∈ allowedPeriodTypes) :
    ((visKeys user p limit rs).reverse).Pairwise keyLt ∧
    (get_expenses_for_visualization user p limit rs).length ≤ limit ∧
    (∀ pt ∈ get_expenses_for_visualization user p limit rs,
      0 < pt.expense_count) ∧
    (∀ k ∈ ((rs.filter (fun r => r.user_id == user)).map
        (fun r => dateKey p r.expense_date)).dedup,
      k ∉ visKeys user p limit rs →
      ∀ k' ∈ visKeys user p limit rs, keyLt k k') ∧
    get_expenses_for_visualization user p limit rs =
      (visKeys user p limit rs).reverse.map
        (fun k => ⟨periodLabel p k,
          keyTotal p (rs.filter (fun r => r.user_id == user)) k,
          keyCount p (rs.filter (fun r => r.user_id == user)) k⟩) := by
  have hsorted : (List.insertionSort keyGe
      (((rs.filter (fun r => r.user_id == user)).map
        (fun r => dateKey p r.expense_date)).dedup)).Pairwise keyGe :=
    List.sorted_insertionSort keyGe _
  have hperm : (List.insertionSort keyGe
      (((rs.filter (fun r => r.user_id == user)).map
        (fun r => dateKey p r.expense_date)).dedup)).Perm
      (((rs.filter (fun r => r.user_id == user)).map
        (fun r => dateKey p r.expense_date)).dedup) :=
    List.perm_insertionSort keyGe _
  have hnodup : (List.insertionSort keyGe
      (((rs.filter (fun r => r.user_id == user)).map
        (fun r => dateKey p r.expense_date)).dedup)).Nodup :=
    (hperm.nodup_iff).mpr (List.nodup_dedup _)
  have htake_sorted : (visKeys user p limit rs).Pairwise keyGe :=
    hsorted.sublist (List.take_sublist _ _)
  have htake_ne : (visKeys user p limit rs).Pairwise (fun a b => a ≠ b) :=
    hnodup.sublist (List.take_sublist _ _)
  refine ⟨?_, ?_, ?_, ?_, rfl⟩
  · rw [List.pairwise_reverse]
    exact (htake_sorted.and htake_ne).imp (fun h => ⟨h.1, h.2.symm⟩)
  · show ((visKeys user p limit rs).reverse.map
      (fun k => (⟨periodLabel p k,
        keyTotal p (rs.filter (fun r => r.user_id == user)) k,
        keyCount p (rs.filter (fun r => r.user_id == user)) k⟩ :
          ChartDataPoint))).length ≤ limit
    rw [List.length_map, List.length_reverse]
    exact List.length_take_le _ _
  · intro pt hpt
    simp only [get_expenses_for_visualization] at hpt
    obtain ⟨k, hk, rfl⟩ := List.mem_map.mp hpt
    have hk1 : k ∈ visKeys user p limit rs := List.mem_reverse.mp hk
    have hk2 : k ∈ List.insertionSort keyGe
        (((rs.filter (fun r => r.user_id == user)).map
          (fun r => dateKey p r.expense_date)).dedup) :=
      (List.take_sublist _ _).subset hk1
    have hk3 := List.mem_dedup.mp ((hperm.mem_iff).mp hk2)
    obtain ⟨r, hr, hrk⟩ := List.mem_map.mp hk3
    show 0 < keyCount p (rs.filter (fun r => r.user_id == user)) k
    exact List.length_pos.mpr (List.ne_nil_of_mem
      (List.mem_filter.mpr ⟨hr, by simp [hrk]⟩))
  · intro k hk hknot k' hk'
    have hmem : k ∈ List.insertionSort keyGe
        (((rs.filter (fun r => r.user_id == user)).map
          (fun r => dateKey p r.expense_date)).dedup) :=
      (hperm.mem_iff).mpr hk
    exact sorted_take_above _ limit hsorted hnodup k hmem hknot k' hk'

/-- Witness for C1 at period type "month" on a one-record store. -/
theorem c1_time_series_shape_witness :
    ((visKeys 0 "month" 5
        [⟨0, "a", 1, .food, none, ⟨2025, 1, 1⟩⟩]).reverse).Pairwise keyLt ∧
    (get_expenses_for_visualization 0 "month" 5
        [⟨0, "a", 1, .food, none, ⟨2025, 1, 1⟩⟩]).length ≤ 5 ∧
    (∀ pt ∈ get_expenses_for_visualization 0 "month" 5
        [⟨0, "a", 1, .food, none, ⟨2025, 1, 1⟩⟩],
      0 < pt.expense_count) ∧
    (∀ k ∈ (([⟨0, "a", 1, .food, none, ⟨2025, 1, 1⟩⟩].filter
          (fun r : Expense => r.user_id == 0)).map
        (fun r => dateKey "month" r.expense_date)).dedup,
      k ∉ visKeys 0 "month" 5 [⟨0, "a", 1, .food, none, ⟨2025, 1, 1⟩⟩] →
      ∀ k' ∈ visKeys 0 "month" 5 [⟨0, "a", 1, .food, none, ⟨2025, 1, 1⟩⟩],
        keyLt k k') ∧
    get_expenses_for_visualization 0 "month" 5
        [⟨0, "a", 1, .food, none, ⟨2025, 1, 1⟩⟩] =
      (visKeys 0 "month" 5
          [⟨0, "a", 1, .food, none, ⟨2025, 1, 1⟩⟩]).reverse.map
        (fun k => ⟨periodLabel "month" k,
          keyTotal "month" ([⟨0, "a", 1, .food, none, ⟨2025, 1, 1⟩⟩].filter
            (fun r : Expense => r.user_id == 0)) k,
          keyCount "month" ([⟨0, "a", 1, .food, none, ⟨2025, 1, 1⟩⟩].filter
            (fun r : Expense => r.user_id == 0)) k⟩) :=
  c1_time_series_shape 0 "month" 5
    [⟨0, "a", 1, .food, none, ⟨2025, 1, 1⟩⟩] (by decide)

/-- Claim C3: over any owner and contiguous date window, the per-category
totals of `group-by-category` sum to the overall total of `summarize`, and
the per-category counts sum to the overall count. -/
theorem c3_breakdown_sums_to_summary (user : Nat) (s e : Option Date)
    (rs : List Expense) :
    (((get_spending_summary user s e rs).category_breakdown.map
        (fun x => x.total_amount)).sum =
      (get_spending_summary user s e rs).total_spending) ∧
    (((get_spending_summary user s e rs).category_breakdown.map
        (fun x => x.expense_count)).sum =
      (get_spending_summary user s e rs).expense_count) :=
  ⟨breakdown_total_sum user s e rs, breakdown_count_sum user s e rs⟩

/-- Claim C2: each category-chart row reports
`total_amount / grand_total * 100` as percentage when the grand total is
positive and 0.0 otherwise; all percentages are 0.0 at grand total 0, and
at positive grand total the percentages sum to 100 within ±0.01. -/
theorem c2_category_chart_percentages (user : Nat) (s e : Option Date)
    (rs : List Expense) :
    (∀ item ∈ get_category_chart_data user s e rs,
      item.percentage =
        if 0 < grandTotal user s e rs then
          item.total_amount / grandTotal user s e rs * 100
        else 0) ∧
    (grandTotal user s e rs = 0 →
      ∀ item ∈ get_category_chart_data user s e rs, item.percentage = 0) ∧
    (0 < grandTotal user s e rs →
      |((get_category_chart_data user s e rs).map
          (fun x => x.percentage)).sum - 100| ≤ 1 / 100) := by
  refine ⟨?_, ?_, ?_⟩
  · intro item hitem
    simp only [get_category_chart_data] at hitem
    obtain ⟨c, hc, rfl⟩ := List.mem_map.mp hitem
    rfl
  · intro h0 item hitem
    simp only [get_category_chart_data] at hitem
    obtain ⟨c, hc, rfl⟩ := List.mem_map.mp hitem
    show (if 0 < grandTotal user s e rs then
      c.total_amount / grandTotal user s e rs * 100 else 0) = 0
    rw [h0]
    simp
  · intro hT
    have hT' : grandTotal user s e rs ≠ 0 := ne_of_gt hT
    have hmap : (get_category_chart_data user s e rs).map
        (fun x => x.percentage) =
        (get_spending_by_category user s e rs).map
          (fun c => c.total_amount * (100 / grandTotal user s e rs)) := by
      simp only [get_category_chart_data, List.map_map]
      apply List.map_congr_left
      intro c _
      show (if 0 < grandTotal user s e rs then
        c.total_amount / grandTotal user s e rs * 100 else 0) = _
      rw [if_pos hT]
      ring
    rw [hmap, List.sum_map_mul_right]
    have hsum : ((get_spending_by_category user s e rs).map
        (fun c => c.total_amount)).sum = grandTotal user s e rs := rfl
    rw [hsum, mul_comm, div_mul_cancel₀ 100 hT']
    norm_num

/-- Witness for C2: with one 1-unit Food record the grand total is positive
and the percentage sum lands within tolerance of 100. -/
theorem c2_category_chart_percentages_witness :
    |((get_category_chart_data 0 none none
        [⟨0, "a", 1, .food, none, ⟨2025, 1, 1⟩⟩]).map
        (fun x => x.percentage)).sum - 100| ≤ 1 / 100 :=
  (c2_category_chart_percentages 0 none none
    [⟨0, "a", 1, .food, none, ⟨2025, 1, 1⟩⟩]).2.2
    (by norm_num [grandTotal, get_spending_by_category, matchesQuery,
      catTotal, catCount, List.insertionSort, List.orderedInsert,
      List.filter_cons, List.dedup_cons_of_not_mem])

/-- Claim C7: for every owner and record set, `group-by-category` is ordered
by `total_amount` descending; an empty record set yields an empty sequence,
and the summary of an empty record set is total 0.0, count 0 and an empty
breakdown. -/
theorem c7_group_by_category_order_and_empty (user : Nat) (s e : Option Date)
    (rs : List Expense) :
    (get_spending_by_category user s e rs).Pairwise
      (fun x y => y.total_amount ≤ x.total_amount) ∧
    get_spending_by_category user s e [] = [] ∧
    get_spending_summary user s e [] =
      ⟨0, 0, [], s, e⟩ := by
  refine ⟨?_, rfl, rfl⟩
  unfold get_spending_by_category
  rw [List.pairwise_map]
  exact List.sorted_insertionSort
    (catGe (rs.filter (matchesQuery user s e)))
    (((rs.filter (matchesQuery user s e)).map (fun r => r.category)).dedup)

theorem spending_by_category_tie :
    get_spending_by_category 0 none none tieRecords =
      [⟨.food, 5, 1⟩, ⟨.transport, 5, 1⟩] := by
  have hm : tieRecords.filter (matchesQuery 0 none none) = tieRecords := by
    simp [tieRecords, List.filter_cons, matchesQuery]
  have hfood : catTotal tieRecords .food = 5 := by
    simp [tieRecords, catTotal, List.filter_cons]
  have htrans : catTotal tieRecords .transport = 5 := by
    simp [tieRecords, catTotal, List.filter_cons]
  have hcfood : catCount tieRecords .food = 1 := by
    simp [tieRecords, catCount, List.filter_cons]
  have hctrans : catCount tieRecords .transport = 1 := by
    simp [tieRecords, catCount, List.filter_cons]
  have hcats : tieRecords.map (fun r => r.category) =
      [ExpenseCategory.food, ExpenseCategory.transport] := by
    simp [tieRecords]
  have hdedup : ([ExpenseCategory.food, ExpenseCategory.transport]).dedup =
      [ExpenseCategory.food, ExpenseCategory.transport] := by
    simp [List.dedup_cons_of_not_mem]
  have hsort : List.insertionSort (catGe tieRecords)
      [ExpenseCategory.food, ExpenseCategory.transport] =
      [ExpenseCategory.food, ExpenseCategory.transport] := by
    simp [List.insertionSort, List.orderedInsert, catGe, hfood, htrans]
  simp only [get_spending_by_category, hm, hcats, hdedup, hsort]
  simp [hfood, htrans, hcfood, hctrans]

theorem spending_by_category_single :
    get_spending_by_category 0 none none
      [⟨0, "a", 1, .food, none, ⟨2025, 1, 1⟩⟩] = [⟨.food, 1, 1⟩] := by
  have hm : ([⟨0, "a", 1, .food, none, ⟨2025, 1, 1⟩⟩] :
      List Expense).filter (matchesQuery 0 none none) =
      [⟨0, "a", 1, .food, none, ⟨2025, 1, 1⟩⟩] := by
    simp [List.filter_cons, matchesQuery]
  have hfood : catTotal [⟨0, "a", 1, .food, none, ⟨2025, 1, 1⟩⟩] .food = 1 := by
    simp [catTotal, List.filter_cons]
  have hcfood : catCount [⟨0, "a", 1, .food, none, ⟨2025, 1, 1⟩⟩] .food = 1 := by
    simp [catCount, List.filter_cons]
  simp only [get_spending_by_category, hm]
  simp [List.insertionSort, List.orderedInsert, hfood, hcfood]

theorem sorted_desc_perm_eq :
    ∀ l₁ l₂ : List CategorySpending, l₁.Perm l₂ →
      l₁.Pairwise (fun x y => y.total_amount ≤ x.total_amount) →
      l₂.Pairwise (fun x y => y.total_amount ≤ x.total_amount) →
      (∀ x ∈ l₁, ∀ y ∈ l₁, x.total_amount = y.total_amount → x = y) →
      l₁ = l₂ := by
  intro l₁
  induction l₁ with
  | nil =>
    intro l₂ hp _ _ _
    exact (hp.symm.eq_nil).symm
  | cons x t₁ ih =>
    intro l₂ hp hs₁ hs₂ hinj
    cases l₂ with
    | nil => exact absurd hp.eq_nil (List.cons_ne_nil _ _)
    | cons y t₂ =>
      have hxy : x = y := by
        by_contra hne
        have hx2 : x ∈ y :: t₂ := hp.subset (List.mem_cons_self _ _)
        have hy1 : y ∈ x :: t₁ := hp.symm.subset (List.mem_cons_self _ _)
        have hxt2 : x ∈ t₂ := (List.mem_cons.mp hx2).resolve_left hne
        have hyt1 : y ∈ t₁ :=
          (List.mem_cons.mp hy1).resolve_left (fun h => hne h.symm)
        have h1 : y.total_amount ≤ x.total_amount :=
          (List.pairwise_cons.mp hs₁).1 y hyt1
        have h2 : x.total_amount ≤ y.total_amount :=
          (List.pairwise_cons.mp hs₂).1 x hxt2
        exact hne (hinj x (List.mem_cons_self _ _) y hy1
          (le_antisymm h2 h1))
      subst hxy
      have hpt : t₁.Perm t₂ := hp.cons_inv
      have htail := ih t₂ hpt (List.pairwise_cons.mp hs₁).2
        (List.pairwise_cons.mp hs₂).2
        (fun a ha b hb hab =>
          hinj a (List.mem_cons_of_mem _ ha) b (List.mem_cons_of_mem _ hb) hab)
      rw [htail]

/-- Counterexample to C8 as stated: on a record set with two categories
tied on total amount both orders of the tied rows are admissible outputs
of the category query, and their serialized outputs differ — repetition
is not byte-identical because the source's `ORDER BY total_amount DESC`
carries no tie-break key. -/
theorem c8_tie_order_counterexample :
    validCategoryResult 0 none none tieRecords
      [⟨.food, 5, 1⟩, ⟨.transport, 5, 1⟩] ∧
    validCategoryResult 0 none none tieRecords
      [⟨.transport, 5, 1⟩, ⟨.food, 5, 1⟩] ∧
    ([(⟨.food, 5, 1⟩ : CategorySpending), ⟨.transport, 5, 1⟩].map
        serializeCategorySpending ≠
      [(⟨.transport, 5, 1⟩ : CategorySpending), ⟨.food, 5, 1⟩].map
        serializeCategorySpending) := by
  refine ⟨⟨?_, ?_⟩, ⟨?_, ?_⟩, ?_⟩
  · rw [spending_by_category_tie]
  · norm_num [List.pairwise_cons]
  · rw [spending_by_category_tie]
    exact List.Perm.swap _ _ _
  · norm_num [List.pairwise_cons]
  · intro h
    simp [serializeCategorySpending] at h

/-- Claim C8 amended: two admissible outputs of `group-by-category` over an
unchanged record set carry the same serialized rows up to reordering of
categories whose totals tie, and they are byte-identical whenever no two
returned categories tie on `total_amount`. -/
theorem c8_group_by_category_tie_stable (user : Nat) (s e : Option Date)
    (rs : List Expense) (out₁ out₂ : List CategorySpending)
    (h₁ : validCategoryResult user s e rs out₁)
    (h₂ : validCategoryResult user s e rs out₂) :
    (out₁.map serializeCategorySpending).Perm
      (out₂.map serializeCategorySpending) ∧
    ((∀ x ∈ out₁, ∀ y ∈ out₁, x.total_amount = y.total_amount → x = y) →
      out₁ = out₂) := by
  have hperm : out₁.Perm out₂ := h₁.1.trans h₂.1.symm
  exact ⟨hperm.map serializeCategorySpending,
    fun hinj => sorted_desc_perm_eq out₁ out₂ hperm h₁.2 h₂.2 hinj⟩

/-- Witness for the amended C8 on a one-record store, where the single
admissible output makes both hypotheses concrete. -/
theorem c8_group_by_category_tie_stable_witness :
    (([(⟨.food, 1, 1⟩ : CategorySpending)]).map
        serializeCategorySpending).Perm
      (([(⟨.food, 1, 1⟩ : CategorySpending)]).map
        serializeCategorySpending) ∧
    ((∀ x ∈ [(⟨.food, 1, 1⟩ : CategorySpending)],
        ∀ y ∈ [(⟨.food, 1, 1⟩ : CategorySpending)],
        x.total_amount = y.total_amount → x = y) →
      [(⟨.food, 1, 1⟩ : CategorySpending)] =
        [(⟨.food, 1, 1⟩ : CategorySpending)]) :=
  c8_group_by_category_tie_stable 0 none none
    [⟨0, "a", 1, .food, none, ⟨2025, 1, 1⟩⟩]
    [⟨.food, 1, 1⟩] [⟨.food, 1, 1⟩]
    ⟨spending_by_category_single ▸ List.Perm.refl _,
      List.pairwise_singleton _ _⟩
    ⟨spending_by_category_single ▸ List.Perm.refl _,
      List.pairwise_singleton _ _⟩

/-- Claim C9: the time-series operation treats `"week"` exactly as `"day"`:
both bucket by calendar date with the ISO date label. -/
theorem c9_week_equals_day (user : Nat) (limit : Nat) (rs : List Expense) :
    get_expenses_for_visualization user "week" limit rs =
      get_expenses_for_visualization user "day" limit rs := rfl

/-- Claim C4: a month with zero matching records reports total 0.0,
average 0.0, count 0 and absent top category and amount, and the period
label of every invocation is the year, a dash and the zero-padded month. -/
theorem c4_monthly_statistics_empty_month (user year month : Nat)
    (rs rs' : List Expense)
    (h : rs.filter (monthPred user year month) = []) :
    get_monthly_statistics user year month rs =
      ⟨toString year ++ "-" ++ pad2 month, 0, 0, 0, none, none⟩ ∧
    (get_monthly_statistics user year month rs').period =
      toString year ++ "-" ++ pad2 month := by
  refine ⟨?_, rfl⟩
  simp only [get_monthly_statistics, h]
  rfl

/-- Witness for C4 at an empty record set. -/
theorem c4_monthly_statistics_empty_month_witness :
    get_monthly_statistics 0 2025 3 [] =
      ⟨toString 2025 ++ "-" ++ pad2 3, 0, 0, 0, none, none⟩ ∧
    (get_monthly_statistics 0 2025 3
      [⟨0, "a", 1, .food, none, ⟨2024, 2, 1⟩⟩]).period =
      toString 2025 ++ "-" ++ pad2 3 :=
  c4_monthly_statistics_empty_month 0 2025 3 []
    [⟨0, "a", 1, .food, none, ⟨2024, 2, 1⟩⟩] rfl

theorem total_pages_eq (t p : Nat) (hp : 1 ≤ p) :
    total_pages t p = (t + p - 1) / p := by
  have hp0 : 0 < p := hp
  have hpQ : (0 : ℚ) < (p : ℚ) := by exact_mod_cast hp0
  by_cases ht : 0 < t
  · rw [total_pages, if_pos ht, Int.ceil_toNat,
      ← Nat.ceilDiv_eq_add_pred_div]
    apply le_antisymm
    · rw [Nat.ceil_le, div_le_iff₀ hpQ]
      have h := le_smul_ceilDiv hp0 (b := t)
      rw [smul_eq_mul] at h
      calc ((t : ℚ)) ≤ ((p * (t ⌈/⌉ p) : ℕ) : ℚ) := by exact_mod_cast h
        _ = ((t ⌈/⌉ p : ℕ) : ℚ) * (p : ℚ) := by push_cast; ring
    · rw [ceilDiv_le_iff_le_smul hp0, smul_eq_mul]
      have h := Nat.le_ceil ((t : ℚ) / (p : ℚ))
      rw [div_le_iff₀ hpQ] at h
      exact_mod_cast
        (by linarith : ((t : ℚ)) ≤ ((p : ℚ)) * ((⌈(t : ℚ) / (p : ℚ)⌉₊ : ℕ) : ℚ))
  · rw [total_pages, if_neg ht]
    have h0 : t = 0 := by omega
    subst h0
    symm
    apply Nat.div_eq_of_lt
    omega

/-- Claim C5: list-expenses reports `total_pages` as the ceiling of
`total_count / page_size`, with 0 (not 1) for an empty result, and in
particular 101 records at page size 50 give 3 pages. -/
theorem c5_pagination_total_pages (t p : Nat) (hp : 1 ≤ p) :
    total_pages t p = (t + p - 1) / p ∧
    total_pages 0 p = 0 ∧
    total_pages 101 50 = 3 := by
  refine ⟨total_pages_eq t p hp, ?_, ?_⟩
  · rw [total_pages]
    simp
  · rw [total_pages_eq 101 50 (by norm_num)]

/-- Witness for C5 at total 7 and page size 3. -/
theorem c5_pagination_total_pages_witness :
    total_pages 7 3 = (7 + 3 - 1) / 3 ∧
    total_pages 0 3 = 0 ∧
    total_pages 101 50 = 3 :=
  c5_pagination_total_pages 7 3 (by decide)

/-- Claim C6: an unrecognized `period_type` makes the visualization route
fail with the 400 validation error, and the response is independent of the
record store (no store access can influence it). -/
theorem c6_invalid_period_type_rejected (user : Nat) (p : String)
    (limit : Nat) (rs rs' : List Expense) (hp : p ∉ allowedPeriodTypes) :
    get_visualization_data user p limit rs =
      .error (.badRequest
        "Invalid period_type. Must be one of: day, week, month, year") ∧
    get_visualization_data user p limit rs =
      get_visualization_data user p limit rs' := by
  constructor
  · unfold get_visualization_data
    rw [if_pos hp]
  · unfold get_visualization_data
    rw [if_pos hp, if_pos hp]

/-- Witness for C6 at the unrecognized period type "quarter". -/
theorem c6_invalid_period_type_rejected_witness :
    get_visualization_data 0 "quarter" 12 [] =
      .error (.badRequest
        "Invalid period_type. Must be one of: day, week, month, year") ∧
    get_visualization_data 0 "quarter" 12 [] =
      get_visualization_data 0 "quarter" 12
        [⟨0, "a", 1, .food, none, ⟨2024, 2, 1⟩⟩] :=
  c6_invalid_period_type_rejected 0 "quarter" 12 []
    [⟨0, "a", 1, .food, none, ⟨2024, 2, 1⟩⟩] (by decide)

/-- Claim C10: every successful visualization response reports
`total_spending` as the sum of the data points, `total_periods` as their
number, and `average_spending` as total over count (0.0 with no points). -/
theorem c10_visualization_response_totals (user : Nat) (p : String)
    (limit : Nat) (rs : List Expense) (resp : ChartVisualizationResponse)
    (h : get_visualization_data user p limit rs = .ok resp) :
    resp.total_spending =
      (resp.data_points.map (fun x => x.total_amount)).sum ∧
    resp.total_periods = resp.data_points.length ∧
    (resp.data_points = [] → resp.average_spending = 0) ∧
    (resp.data_points ≠ [] →
      resp.average_spending =
        resp.total_spending / (resp.data_points.length : ℚ)) := by
  unfold get_visualization_data at h
  by_cases hp : p ∉ allowedPeriodTypes
  · rw [if_pos hp] at h
    exact absurd h (by simp)
  · rw [if_neg hp] at h
    injection h with h'
    subst h'
    exact ⟨rfl, rfl, fun hnil => if_pos hnil, fun hnil => if_neg hnil⟩

/-- Witness for C10 at a concrete successful invocation. -/
theorem c10_visualization_response_totals_witness :
    (ChartVisualizationResponse.mk "month" [] 0 0 0).total_spending =
      ((ChartVisualizationResponse.mk "month" [] 0 0 0).data_points.map
        (fun x => x.total_amount)).sum ∧
    (ChartVisualizationResponse.mk "month" [] 0 0 0).total_periods =
      (ChartVisualizationResponse.mk "month" [] 0 0 0).data_points.length ∧
    ((ChartVisualizationResponse.mk "month" [] 0 0 0).data_points = [] →
      (ChartVisualizationResponse.mk "month" [] 0 0 0).average_spending = 0) ∧
    ((ChartVisualizationResponse.mk "month" [] 0 0 0).data_points ≠ [] →
      (ChartVisualizationResponse.mk "month" [] 0 0 0).average_spending =
        (ChartVisualizationResponse.mk "month" [] 0 0 0).total_spending /
          ((ChartVisualizationResponse.mk "month" [] 0 0 0).data_points.length
            : ℚ)) :=
  c10_visualization_response_totals 0 "month" 12 [] ⟨"month", [], 0, 0, 0⟩ rfl

example :
    get_spending_by_category 0 none none
      [⟨0, "a", 10, .food, none, ⟨2025, 1, 1⟩⟩,
       ⟨0, "b", 5, .food, none, ⟨2025, 1, 2⟩⟩] =
      [⟨.food, 15, 2⟩] := by
  norm_num [get_spending_by_category, matchesQuery, catTotal, catCount,
    List.insertionSort, List.orderedInsert,
    List.filter_cons, List.filter_nil, List.dedup_cons_of_not_mem]
